import Mathlib

set_option maxRecDepth 8000

/-!
Verification of the course-submission checker: a shallow embedding of
`src/main.rs` and `src/checks.rs` from the `rust_course_helper` repository.
Filesystem reads and external process invocations are modelled by an explicit
`Env` record fixed per run; string primitives used by the code (`lines`,
`contains`, `ends_with`, `join`) are re-implemented by structural recursion on
character lists so that every definition evaluates on concrete inputs.
-/

namespace CourseHelper

/-- Rust `str::contains` on the pattern character list: true when the pattern
occurs as a contiguous run of the haystack. -/
def strContainsAux (pat : List Char) : List Char → Bool
  | [] => pat.isEmpty
  | c :: cs => pat.isPrefixOf (c :: cs) || strContainsAux pat cs

/-- Rust `str::contains` for plain string patterns. -/
def strContains (s pat : String) : Bool :=
  strContainsAux pat.data s.data

/-- Rust `str::ends_with` for plain string patterns. -/
def strEndsWith (s suf : String) : Bool :=
  suf.data.reverse.isPrefixOf s.data.reverse

/-- Rust `str::starts_with` for plain string patterns. -/
def strStartsWith (s pre : String) : Bool :=
  pre.data.isPrefixOf s.data

/-- Splits a character list at newline characters, keeping every field. -/
def splitLinesAux (cur : List Char) : List Char → List (List Char)
  | [] => [cur.reverse]
  | c :: cs =>
    if c = '\n' then cur.reverse :: splitLinesAux [] cs
    else splitLinesAux (c :: cur) cs

/-- Drops one trailing carriage return from a line, as Rust `str::lines` does. -/
def stripCR (l : List Char) : List Char :=
  match l.reverse with
  | '\r' :: rest => rest.reverse
  | _ => l

/-- Rust `str::lines`: split on newline, no empty final line when the text ends
with a newline, trailing carriage returns stripped. -/
def rustLines (s : String) : List String :=
  let parts := splitLinesAux [] s.data
  let parts :=
    match parts.getLast? with
    | some [] => parts.dropLast
    | _ => parts
  parts.map fun l => String.mk (stripCR l)

/-- Rust `[&str]::join`: interleaves the separator between the elements. -/
def joinWith (sep : String) : List String → String
  | [] => ""
  | [x] => x
  | x :: xs => x ++ sep ++ joinWith sep xs

/-- `camino::Utf8PathBuf::join`: appends a component to a path; an absolute
component replaces the path. -/
def pathJoin (base comp : String) : String :=
  if strStartsWith comp "/" then comp
  else if strEndsWith base "/" then base ++ comp
  else base ++ "/" ++ comp

/-- A single recorded problem (`Diag` in `main.rs`): message text, optional
filesystem path, optional help text. -/
structure Diag where
  text : String
  path : Option String
  help : Option String
deriving DecidableEq

/-- The diagnostics collector (`Diags` in `main.rs`): an ordered list of
problems, appended to by failing checks. -/
structure Diags where
  problems : List Diag
deriving DecidableEq

/-- Outcome of a check: `Ok(())` or `Err(CheckError)` in the Rust source. The
error variant carries no payload. -/
inductive CheckResult where
  | ok
  | err
deriving DecidableEq

/-- `Diags::add`: appends a `Diag` built from the arguments. In Rust it returns
the `CheckError` marker and mutates the collector behind `&mut`; here it
returns the updated collector and the caller pairs it with `.err`. -/
def Diags.add (d : Diags) (text : String) (path : Option String)
    (help : Option String) : Diags :=
  { problems := d.problems ++ [{ text := text, path := path, help := help }] }

/-- The lines printed for one problem by `Diags::print`: the error line, then a
path line when a path is present, then a help line when help is present. The
colored label rendering is cosmetic and omitted. -/
def Diag.printLines (p : Diag) : List String :=
  ["error: " ++ p.text]
    ++ (match p.path with
        | some path => ["path: " ++ path]
        | none => [])
    ++ (match p.help with
        | some help => ["help: " ++ help]
        | none => [])

/-- `Diags::print`: the full report, as the ordered list of printed lines. -/
def Diags.print (d : Diags) : List String :=
  if d.problems.isEmpty then
    ["no problems found"]
  else
    "some problems were found:" :: (d.problems.map Diag.printLines).flatten

/-- The fixed whitelist `NAMES` of `validate_lab_name` in `main.rs`. -/
def NAMES : List String :=
  ["lab01", "lab02", "lab03", "lab04", "lab05", "lab06", "lab07", "project"]

/-- `validate_lab_name`: succeeds on whitelisted names; otherwise records one
diagnostic whose help lists the valid options, and fails. -/
def validate_lab_name (problems : Diags) (name : String) : Diags × CheckResult :=
  if NAMES.contains name then
    (problems, .ok)
  else
    (problems.add ("`" ++ name ++ "` is not an expected lab name") none
      (some ("expected one of: " ++ joinWith ", " NAMES)), .err)

/-- Per-run context (`Context` in `main.rs`): the repository root path and the
lab subfolder path. The `verbose` flag is modelled from the spec: `run_cargo`
in `checks.rs` reads `ctx.verbose`, and the spec lists the flag as part of the
Context, but the `Context` struct declaration in the `main.rs` snapshot omits
the field. The `&mut Diags` reference is threaded explicitly instead. -/
structure Context where
  repo_path : String
  lab_path : String
  verbose : Bool
deriving DecidableEq

/-- Captured output of a completed child process (`std::process::Output`):
stdout and stderr text plus the numeric exit code; `status.success()` is
`code = 0`. -/
structure SpawnOutput where
  stdout : String
  stderr : String
  code : Nat
deriving DecidableEq

/-- Text rendering of an exit status as interpolated into failure messages
(`Display` for `ExitStatus` prints `exit status: N` for a normal exit). -/
def statusDisplay (code : Nat) : String :=
  "exit status: " ++ toString code

/-- Outcome of looking up and reading a file: missing, present but unreadable,
or present with its full text content. -/
inductive FileRead where
  | missing
  | unreadable
  | content (text : String)
deriving DecidableEq

deriving instance DecidableEq for Except

/-- The external world observed by one run, fixed per run: the result of
reading `.gitignore`, of spawning `git ls-files`, of testing the lab folder,
and of spawning each of the four cargo subcommands. A spawn result is either
the captured output or the OS error message when the program could not be
launched. -/
structure Env where
  gitignore : FileRead
  gitLsFiles : Except String SpawnOutput
  labFolderExists : Bool
  cargoBuild : Except String SpawnOutput
  cargoClippy : Except String SpawnOutput
  cargoTest : Except String SpawnOutput
  cargoFmt : Except String SpawnOutput
deriving DecidableEq

/-- `command_check_return` in `checks.rs`: on a non-zero exit status, records a
diagnostic carrying the repository root path and no help, and fails. -/
def command_check_return (ctx : Context) (problems : Diags) (name : String)
    (code : Nat) (text : String) : Diags × CheckResult :=
  if code ≠ 0 then
    (problems.add (text ++ "; command `" ++ name ++ "` failed: " ++ statusDisplay code)
      (some ctx.repo_path) none, .err)
  else
    (problems, .ok)

/-- The help link emitted by `check_gitignore`. -/
def gitignoreHelp : String :=
  "you need to have a file like this: https://github.com/xTachyon/rust_course_helper/blob/main/.gitignore"

/-- `check_gitignore`: the `.gitignore` at the repository root must exist, be
readable, and have a line containing `target`. -/
def check_gitignore (env : Env) (ctx : Context) (problems : Diags) :
    Diags × CheckResult :=
  let gitignore_path := pathJoin ctx.repo_path ".gitignore"
  match env.gitignore with
  | .missing =>
    (problems.add ".gitignore doesn't exist" (some gitignore_path)
      (some gitignoreHelp), .err)
  | .unreadable =>
    (problems.add "can't read file" (some gitignore_path) none, .err)
  | .content text =>
    if !(rustLines text).any (fun x => strContains x "target") then
      (problems.add "target folder doesn't exist in .gitignore" (some gitignore_path)
        (some gitignoreHelp), .err)
    else
      (problems, .ok)

/-- The banned artifact extensions (`EXTENSIONS` in `check_commited_files`). -/
def EXTENSIONS : List String :=
  [".exe", ".dll", ".pdb", ".lib", ".obj", ".so", ".dylib", ".a", ".o",
   ".rlib", ".rmeta", ".d"]

/-- Whether a `git ls-files` output line names a build artifact: the inner loop
of `check_commited_files` pushes the line when it ends with one of the
extensions (the `break` makes it push at most once). -/
def isBadFile (line : String) : Bool :=
  EXTENSIONS.any fun ext => strEndsWith line ext

/-- The message built by `check_commited_files` for a non-empty bad-file list:
the first 20 offenders joined by newlines after the fixed header, then an
`..and N more` line when the list was truncated. -/
def commitedMessage (bad_files : List String) : String :=
  let max_lines := 20
  let first_bad_files := bad_files.take max_lines
  let text := "build files were found in the repo. bad files: "
      ++ joinWith "\n" first_bad_files
  if bad_files.length > max_lines then
    text ++ "\n..and " ++ toString (bad_files.length - max_lines) ++ " more"
  else
    text

/-- `check_commited_files`: runs `git ls-files` in the repository root and
fails when the spawn fails, when git exits non-zero, or when any tracked file
ends in a banned extension. -/
def check_commited_files (env : Env) (ctx : Context) (problems : Diags) :
    Diags × CheckResult :=
  match env.gitLsFiles with
  | .error e =>
    (problems.add ("git failed: " ++ e) (some ctx.repo_path) none, .err)
  | .ok output =>
    match command_check_return ctx problems "git" output.code "failed" with
    | (problems1, .err) => (problems1, .err)
    | (problems1, .ok) =>
      let bad_files := (rustLines output.stdout).filter isBadFile
      if bad_files.isEmpty then
        (problems1, .ok)
      else
        (problems1.add (commitedMessage bad_files) (some ctx.repo_path)
          (some "remove target directories and all build artifacts"), .err)

/-- `check_lab_folder`: the lab subfolder must exist. -/
def check_lab_folder (env : Env) (ctx : Context) (problems : Diags) :
    Diags × CheckResult :=
  if !env.labFolderExists then
    (problems.add "lab folder doesn't exist" (some ctx.lab_path) none, .err)
  else
    (problems, .ok)

/-- Console and evaluation events of `run_cargo`, in emission order: the
command announcement, the verbose echo of the captured stdout and stderr, and
the evaluation of the exit status. -/
inductive Event where
  | printCmd (line : String)
  | echo (stdoutText stderrText : String)
  | evalStatus (code : Nat)
deriving DecidableEq

/-- `run_cargo`: announces the command, spawns `cargo` with the given argument
list in the lab folder, records a diagnostic carrying the lab path when the
spawn fails, echoes the captured output when `ctx.verbose` is set, and then
evaluates the exit status via `command_check_return`. Returns the updated
collector, the outcome, and the ordered event trace. -/
def run_cargo (ctx : Context) (spawn : Except String SpawnOutput)
    (args : List String) (text : String) (problems : Diags) :
    (Diags × CheckResult) × List Event :=
  let ev0 : List Event := [.printCmd ("running command: cargo " ++ joinWith " " args)]
  match spawn with
  | .error e =>
    ((problems.add (text ++ "; because: cargo failed with `" ++ e ++ "`")
        (some ctx.lab_path) none, .err), ev0)
  | .ok output =>
    let ev1 := ev0 ++ (if ctx.verbose then [Event.echo output.stdout output.stderr] else [])
    let ev2 := ev1 ++ [Event.evalStatus output.code]
    (command_check_return ctx problems "cargo" output.code text, ev2)

/-- The console and evaluation events of the `git ls-files` invocation in
`check_commited_files`: the source captures the process output with
`.output()` and contains no print statement at all — no command announcement
and no verbose echo, whatever `ctx` holds — and the exit status is evaluated
by `command_check_return` exactly when the spawn completed. -/
def check_commited_files_events (env : Env) (_ctx : Context) : List Event :=
  match env.gitLsFiles with
  | .error _ => []
  | .ok output => [Event.evalStatus output.code]

/-- `check_compiler_warnings`: `cargo build --all -q` in the lab folder. -/
def check_compiler_warnings (env : Env) (ctx : Context) (problems : Diags) :
    Diags × CheckResult :=
  (run_cargo ctx env.cargoBuild ["build", "--all", "-q"]
    "code has compiler warnings" problems).1

/-- `check_clippy`: `cargo clippy --all -q` in the lab folder. -/
def check_clippy (env : Env) (ctx : Context) (problems : Diags) :
    Diags × CheckResult :=
  (run_cargo ctx env.cargoClippy ["clippy", "--all", "-q"]
    "code has clippy warnings" problems).1

/-- `check_tests`: `cargo test --all -q` in the lab folder. -/
def check_tests (env : Env) (ctx : Context) (problems : Diags) :
    Diags × CheckResult :=
  (run_cargo ctx env.cargoTest ["test", "--all", "-q"]
    "code has failed tests" problems).1

/-- `check_fmt`: `cargo fmt --all --check -q` in the lab folder. -/
def check_fmt (env : Env) (ctx : Context) (problems : Diags) :
    Diags × CheckResult :=
  (run_cargo ctx env.cargoFmt ["fmt", "--all", "--check", "-q"]
    "code is not formatted" problems).1

/-- The fixed pipeline `CHECKS` of `checks.rs`, in source order. -/
def CHECKS : List (Env → Context → Diags → Diags × CheckResult) :=
  [check_gitignore, check_commited_files, check_lab_folder,
   check_compiler_warnings, check_clippy, check_tests, check_fmt]

/-- Rust `Result::and` specialised to check outcomes: keeps the first failure. -/
def CheckResult.and : CheckResult → CheckResult → CheckResult
  | .ok, r => r
  | .err, _ => .err

/-- The check loop of `main_impl`: calls every function in order on the
threaded collector, folding the outcomes with `Result::and`. -/
def checksLoop (fs : List (Env → Context → Diags → Diags × CheckResult))
    (env : Env) (ctx : Context) (problems : Diags) (acc : CheckResult) :
    Diags × CheckResult :=
  match fs with
  | [] => (problems, acc)
  | f :: rest =>
    let pr := f env ctx problems
    checksLoop rest env ctx pr.1 (CheckResult.and acc pr.2)

/-- `main_impl`: validates the lab name (propagating its failure before any
check runs), builds the context with `lab_path = repo.join(lab)`, and runs the
pipeline. -/
def main_impl (repo lab : String) (verbose : Bool) (env : Env)
    (problems : Diags) : Diags × CheckResult :=
  match validate_lab_name problems lab with
  | (problems1, .err) => (problems1, .err)
  | (problems1, .ok) =>
    let ctx : Context :=
      { repo_path := repo, lab_path := pathJoin repo lab, verbose := verbose }
    checksLoop CHECKS env ctx problems1 .ok

/-- `main`: runs `main_impl` on an empty collector and maps the outcome to the
process exit code (`ExitCode::SUCCESS` is 0, `ExitCode::FAILURE` is 1).
Returns the final collector, the outcome, and the exit code. -/
def mainRun (repo lab : String) (verbose : Bool) (env : Env) :
    Diags × CheckResult × Nat :=
  let pr := main_impl repo lab verbose env { problems := [] }
  (pr.1, pr.2, match pr.2 with | .ok => 0 | .err => 1)

/-- The collector obtained by applying every check of a list in order,
independently of any outcome. -/
def applyAll (fs : List (Env → Context → Diags → Diags × CheckResult))
    (env : Env) (ctx : Context) (problems : Diags) : Diags :=
  match fs with
  | [] => problems
  | f :: rest => applyAll rest env ctx (f env ctx problems).1

/-- The individual outcome of each check of a list as the collector threads
through it, independently of any aggregation. -/
def resultsOf (fs : List (Env → Context → Diags → Diags × CheckResult))
    (env : Env) (ctx : Context) (problems : Diags) : List CheckResult :=
  match fs with
  | [] => []
  | f :: rest =>
    (f env ctx problems).2 :: resultsOf rest env ctx (f env ctx problems).1

/-- Folding `Result::and` from an already-failed accumulator stays failed. -/
theorem foldl_and_err (rs : List CheckResult) :
    rs.foldl CheckResult.and .err = .err := by
  induction rs with
  | nil => rfl
  | cons r rs ih => simpa [CheckResult.and] using ih

/-- Folding `Result::and` from `ok` yields `ok` exactly when every folded
outcome is `ok`. -/
theorem foldl_and_ok_iff (rs : List CheckResult) :
    rs.foldl CheckResult.and .ok = .ok ↔ ∀ r ∈ rs, r = .ok := by
  induction rs with
  | nil => simp
  | cons r rs ih =>
    cases r with
    | ok => simpa [CheckResult.and] using ih
    | err => simp [CheckResult.and, foldl_and_err]

/-- The check loop decomposes into the collector evolution `applyAll`, which
ignores outcomes, and the fold of the individual outcomes `resultsOf`. -/
theorem checksLoop_eq (fs : List (Env → Context → Diags → Diags × CheckResult))
    (env : Env) (ctx : Context) :
    ∀ problems acc, checksLoop fs env ctx problems acc =
      (applyAll fs env ctx problems,
       (resultsOf fs env ctx problems).foldl CheckResult.and acc) := by
  induction fs with
  | nil => intro problems acc; rfl
  | cons f rest ih =>
    intro problems acc
    simp only [checksLoop, applyAll, resultsOf, List.foldl_cons, ih]

/-- C1: every run that reaches the pipeline executes all seven checks in the
fixed source order (gitignore, committed files, lab folder, build, clippy,
tests, fmt) regardless of individual outcomes: the final collector equals the
one obtained by applying every check in order with no aggregation at all, and
the aggregate outcome is success exactly when every individual check
succeeded. -/
theorem pipeline_runs_all_checks (env : Env) (ctx : Context) (problems : Diags) :
    CHECKS = [check_gitignore, check_commited_files, check_lab_folder,
      check_compiler_warnings, check_clippy, check_tests, check_fmt] ∧
    (checksLoop CHECKS env ctx problems .ok).1 = applyAll CHECKS env ctx problems ∧
    ((checksLoop CHECKS env ctx problems .ok).2 = .ok ↔
      ∀ r ∈ resultsOf CHECKS env ctx problems, r = .ok) := by
  refine ⟨rfl, ?_, ?_⟩
  · rw [checksLoop_eq]
  · rw [checksLoop_eq]
    exact foldl_and_ok_iff _

/-- `main_impl` succeeds exactly when the lab name is whitelisted and every
individual check succeeds. -/
theorem main_impl_ok_iff (repo lab : String) (verbose : Bool) (env : Env)
    (problems : Diags) :
    (main_impl repo lab verbose env problems).2 = .ok ↔
      lab ∈ NAMES ∧
      ∀ r ∈ resultsOf CHECKS env
        { repo_path := repo, lab_path := pathJoin repo lab, verbose := verbose }
        problems, r = .ok := by
  by_cases h : lab ∈ NAMES
  · simp [main_impl, validate_lab_name, h, checksLoop_eq, foldl_and_ok_iff]
  · simp [main_impl, validate_lab_name, h]

/-- C2: the process exit status is 0 exactly when the lab-name precondition
and every check succeed, and 1 exactly when `main_impl` returns the failure
outcome. -/
theorem exit_code_spec (repo lab : String) (verbose : Bool) (env : Env) :
    ((mainRun repo lab verbose env).2.2 = 1 ↔
      (main_impl repo lab verbose env { problems := [] }).2 = .err) ∧
    ((mainRun repo lab verbose env).2.2 = 0 ↔
      (main_impl repo lab verbose env { problems := [] }).2 = .ok) ∧
    ((mainRun repo lab verbose env).2.2 = 0 ↔
      lab ∈ NAMES ∧
      ∀ r ∈ resultsOf CHECKS env
        { repo_path := repo, lab_path := pathJoin repo lab, verbose := verbose }
        { problems := [] }, r = .ok) := by
  have h2 : (mainRun repo lab verbose env).2.2 = 0 ↔
      (main_impl repo lab verbose env { problems := [] }).2 = .ok := by
    cases h : (main_impl repo lab verbose env { problems := [] }).2 <;>
      simp [mainRun, h]
  have h1 : (mainRun repo lab verbose env).2.2 = 1 ↔
      (main_impl repo lab verbose env { problems := [] }).2 = .err := by
    cases h : (main_impl repo lab verbose env { problems := [] }).2 <;>
      simp [mainRun, h]
  exact ⟨h1, h2, h2.trans (main_impl_ok_iff repo lab verbose env { problems := [] })⟩

/-- C3: lab identifiers outside the eight-name whitelist make validation fail
with exactly one diagnostic whose help text lists the eight valid names, and
`main_impl` then returns the validation result itself, so no check executes;
whitelisted identifiers validate with no diagnostic added. -/
theorem lab_name_whitelist (repo lab : String) (verbose : Bool) (env : Env)
    (problems : Diags) :
    (lab ∈ NAMES → validate_lab_name problems lab = (problems, .ok)) ∧
    (lab ∉ NAMES →
      validate_lab_name problems lab =
        ({ problems := problems.problems ++
            [{ text := "`" ++ lab ++ "` is not an expected lab name",
               path := none,
               help := some "expected one of: lab01, lab02, lab03, lab04, lab05, lab06, lab07, project" }] },
          .err) ∧
      main_impl repo lab verbose env problems = validate_lab_name problems lab) ∧
    (lab ∈ NAMES ↔
      lab = "lab01" ∨ lab = "lab02" ∨ lab = "lab03" ∨ lab = "lab04" ∨
      lab = "lab05" ∨ lab = "lab06" ∨ lab = "lab07" ∨ lab = "project") := by
  refine ⟨fun h => by simp [validate_lab_name, h], fun h => ?_, ?_⟩
  · have hc : ¬(NAMES.contains lab = true) := by simpa using h
    constructor
    · unfold validate_lab_name
      rw [if_neg hc]
      rfl
    · simp [main_impl, validate_lab_name, h]
  · simp [NAMES]

/-- C3 witness: `lab03` validates with no diagnostic; `lab99` fails with the
single whitelist diagnostic. -/
theorem lab_name_whitelist_witness :
    validate_lab_name { problems := [] } "lab03" = ({ problems := [] }, .ok) ∧
    validate_lab_name { problems := [] } "lab99" =
      ({ problems :=
          [{ text := "`lab99` is not an expected lab name",
             path := none,
             help := some "expected one of: lab01, lab02, lab03, lab04, lab05, lab06, lab07, project" }] },
        .err) :=
  ⟨(lab_name_whitelist "r" "lab03" false
      { gitignore := .missing, gitLsFiles := .error "", labFolderExists := false,
        cargoBuild := .error "", cargoClippy := .error "", cargoTest := .error "",
        cargoFmt := .error "" } { problems := [] }).1 (by decide),
   ((lab_name_whitelist "r" "lab99" false
      { gitignore := .missing, gitLsFiles := .error "", labFolderExists := false,
        cargoBuild := .error "", cargoClippy := .error "", cargoTest := .error "",
        cargoFmt := .error "" } { problems := [] }).2.1 (by decide)).1⟩

/-- A check appends exactly one diagnostic when it fails and none when it
succeeds, always extending the existing list. -/
def AddsPerOutcome (f : Env → Context → Diags → Diags × CheckResult) : Prop :=
  ∀ env ctx problems, ∃ new,
    (f env ctx problems).1.problems = problems.problems ++ new ∧
    new.length = (if (f env ctx problems).2 = .err then 1 else 0)

theorem addsPerOutcome_check_gitignore : AddsPerOutcome check_gitignore := by
  intro env ctx problems
  obtain ⟨g, gls, lf, cb, cc, ct, cf⟩ := env
  unfold check_gitignore
  cases g with
  | missing => exact ⟨_, rfl, rfl⟩
  | unreadable => exact ⟨_, rfl, rfl⟩
  | content text =>
    dsimp only
    split
    · exact ⟨_, rfl, rfl⟩
    · exact ⟨[], by simp, rfl⟩

theorem addsPerOutcome_check_commited_files : AddsPerOutcome check_commited_files := by
  intro env ctx problems
  obtain ⟨g, gls, lf, cb, cc, ct, cf⟩ := env
  unfold check_commited_files command_check_return
  cases gls with
  | error e => exact ⟨_, rfl, rfl⟩
  | ok output =>
    dsimp only
    by_cases hc : output.code = 0
    · simp only [hc, ne_eq, not_true_eq_false, if_false]
      split
      · exact ⟨[], by simp, rfl⟩
      · exact ⟨_, rfl, rfl⟩
    · simp only [ne_eq, hc, not_false_eq_true, if_true]
      exact ⟨_, rfl, rfl⟩

theorem addsPerOutcome_check_lab_folder : AddsPerOutcome check_lab_folder := by
  intro env ctx problems
  unfold check_lab_folder
  split
  · exact ⟨_, rfl, rfl⟩
  · exact ⟨[], by simp, rfl⟩

theorem addsPerOutcome_run_cargo (ctx : Context) (spawn : Except String SpawnOutput)
    (args : List String) (text : String) (problems : Diags) :
    ∃ new, ((run_cargo ctx spawn args text problems).1).1.problems =
        problems.problems ++ new ∧
      new.length =
        (if ((run_cargo ctx spawn args text problems).1).2 = .err then 1 else 0) := by
  unfold run_cargo command_check_return
  cases spawn with
  | error e => exact ⟨_, rfl, rfl⟩
  | ok output =>
    dsimp only
    split
    · exact ⟨_, rfl, rfl⟩
    · exact ⟨[], by simp, rfl⟩

theorem addsPerOutcome_check_compiler_warnings :
    AddsPerOutcome check_compiler_warnings := fun env ctx problems =>
  addsPerOutcome_run_cargo ctx env.cargoBuild ["build", "--all", "-q"]
    "code has compiler warnings" problems

theorem addsPerOutcome_check_clippy : AddsPerOutcome check_clippy :=
  fun env ctx problems =>
    addsPerOutcome_run_cargo ctx env.cargoClippy ["clippy", "--all", "-q"]
      "code has clippy warnings" problems

theorem addsPerOutcome_check_tests : AddsPerOutcome check_tests :=
  fun env ctx problems =>
    addsPerOutcome_run_cargo ctx env.cargoTest ["test", "--all", "-q"]
      "code has failed tests" problems

theorem addsPerOutcome_check_fmt : AddsPerOutcome check_fmt :=
  fun env ctx problems =>
    addsPerOutcome_run_cargo ctx env.cargoFmt ["fmt", "--all", "--check", "-q"]
      "code is not formatted" problems

theorem addsPerOutcome_CHECKS : ∀ f ∈ CHECKS, AddsPerOutcome f := by
  intro f hf
  simp only [CHECKS, List.mem_cons, List.not_mem_nil, or_false] at hf
  rcases hf with rfl | rfl | rfl | rfl | rfl | rfl | rfl
  · exact addsPerOutcome_check_gitignore
  · exact addsPerOutcome_check_commited_files
  · exact addsPerOutcome_check_lab_folder
  · exact addsPerOutcome_check_compiler_warnings
  · exact addsPerOutcome_check_clippy
  · exact addsPerOutcome_check_tests
  · exact addsPerOutcome_check_fmt

theorem validate_lab_name_adds (problems : Diags) (lab : String) :
    ∃ new, (validate_lab_name problems lab).1.problems = problems.problems ++ new ∧
      new.length = (if (validate_lab_name problems lab).2 = .err then 1 else 0) := by
  unfold validate_lab_name
  split
  · exact ⟨[], by simp, rfl⟩
  · exact ⟨_, rfl, rfl⟩

/-- The check loop only extends the collector; it fails only when some check
appended a diagnostic (or the accumulator was already failed), and succeeds
only when nothing was appended and the accumulator was success. -/
theorem checksLoop_adds (fs : List (Env → Context → Diags → Diags × CheckResult))
    (h : ∀ f ∈ fs, AddsPerOutcome f) (env : Env) (ctx : Context) :
    ∀ problems acc, ∃ new,
      (checksLoop fs env ctx problems acc).1.problems = problems.problems ++ new ∧
      ((checksLoop fs env ctx problems acc).2 = .err → acc = .err ∨ new ≠ []) ∧
      ((checksLoop fs env ctx problems acc).2 = .ok → acc = .ok ∧ new = []) := by
  induction fs with
  | nil =>
    intro problems acc
    exact ⟨[], by simp [checksLoop], fun hr => Or.inl hr, fun hr => ⟨hr, rfl⟩⟩
  | cons f rest ih =>
    intro problems acc
    obtain ⟨new1, e1, l1⟩ := h f (List.mem_cons_self f rest) env ctx problems
    obtain ⟨new2, e2, h2err, h2ok⟩ :=
      ih (fun g hg => h g (List.mem_cons_of_mem f hg)) (f env ctx problems).1
        (CheckResult.and acc (f env ctx problems).2)
    refine ⟨new1 ++ new2, ?_, ?_, ?_⟩
    · rw [checksLoop]
      rw [e2, e1, List.append_assoc]
    · rw [checksLoop]
      intro hr
      rcases h2err hr with hand | hne
      · cases acc with
        | err => exact Or.inl rfl
        | ok =>
          refine Or.inr ?_
          have hf : (f env ctx problems).2 = .err := hand
          rw [hf] at l1
          simp only [if_pos rfl] at l1
          intro hnil
          have : new1 = [] := (List.append_eq_nil.mp hnil).1
          rw [this] at l1
          exact Nat.noConfusion l1
      · exact Or.inr fun hnil => hne (List.append_eq_nil.mp hnil).2
    · rw [checksLoop]
      intro hr
      obtain ⟨hand, hn2⟩ := h2ok hr
      cases acc with
      | err => exact absurd hand (by simp [CheckResult.and])
      | ok =>
        have hf : (f env ctx problems).2 = .ok := hand
        rw [hf] at l1
        simp only [if_neg (by simp : ¬CheckResult.ok = CheckResult.err)] at l1
        exact ⟨rfl, by simp [List.length_eq_zero.mp l1, hn2]⟩

/-- C4: every check appends exactly one diagnostic on a failure outcome and
none on success, the lab-name validation does the same, and consequently a run
started on an empty collector fails exactly when the final collector is
non-empty. -/
theorem failure_appends_one_diag :
    (∀ i : Fin CHECKS.length, ∀ env ctx problems, ∃ new,
      ((CHECKS.get i) env ctx problems).1.problems = problems.problems ++ new ∧
      new.length = (if ((CHECKS.get i) env ctx problems).2 = .err then 1 else 0)) ∧
    (∀ problems lab, ∃ new,
      (validate_lab_name problems lab).1.problems = problems.problems ++ new ∧
      new.length = (if (validate_lab_name problems lab).2 = .err then 1 else 0)) ∧
    (∀ repo lab verbose env,
      (main_impl repo lab verbose env { problems := [] }).2 = .err ↔
        (main_impl repo lab verbose env { problems := [] }).1.problems ≠ []) := by
  refine ⟨fun i => addsPerOutcome_CHECKS (CHECKS.get i) (List.get_mem CHECKS i.1 i.2),
    validate_lab_name_adds, fun repo lab verbose env => ?_⟩
  by_cases hmem : lab ∈ NAMES
  · have hmain : main_impl repo lab verbose env { problems := [] } =
        checksLoop CHECKS env
          { repo_path := repo, lab_path := pathJoin repo lab, verbose := verbose }
          { problems := [] } .ok := by
      simp [main_impl, validate_lab_name, hmem]
    obtain ⟨new, e, herr, hok⟩ := checksLoop_adds CHECKS addsPerOutcome_CHECKS env
      { repo_path := repo, lab_path := pathJoin repo lab, verbose := verbose }
      { problems := [] } .ok
    rw [hmain, e]
    simp only [List.nil_append]
    constructor
    · intro hr
      rcases herr hr with hcontra | hne
      · exact absurd hcontra (by simp)
      · exact hne
    · intro hne
      cases hr : (checksLoop CHECKS env _ { problems := [] } .ok).2 with
      | err => rfl
      | ok => exact absurd (hok hr).2 hne
  · have hval : ¬(NAMES.contains lab = true) := by simpa using hmem
    simp only [main_impl, validate_lab_name, if_neg hval]
    simp [Diags.add]

/-- An environment whose `git ls-files` spawn succeeds with exit code 0 and
the given stdout text; the other observations are irrelevant to the
committed-files check. -/
def envWithLs (out : String) : Env :=
  { gitignore := FileRead.missing,
    gitLsFiles := Except.ok { stdout := out, stderr := "", code := 0 },
    labFolderExists := false,
    cargoBuild := Except.error "", cargoClippy := Except.error "",
    cargoTest := Except.error "", cargoFmt := Except.error "" }

/-- Twenty-five tracked files all ending in the banned `.o` extension. -/
def files25 : List String :=
  ["f01.o", "f02.o", "f03.o", "f04.o", "f05.o", "f06.o", "f07.o", "f08.o",
   "f09.o", "f10.o", "f11.o", "f12.o", "f13.o", "f14.o", "f15.o", "f16.o",
   "f17.o", "f18.o", "f19.o", "f20.o", "f21.o", "f22.o", "f23.o", "f24.o",
   "f25.o"]

/-- The `git ls-files` stdout listing `files25`, one per line. -/
def stdout25 : String := joinWith "\n" files25 ++ "\n"

/-- C5 counterexample: on the 25-matching-file input the truncation suffix
written by `check_commited_files` is `..and 5 more` with two dots, so the
message does not contain the claimed `...and 5 more` anywhere. -/
theorem commited_files_suffix_cex :
    strContains (commitedMessage ((rustLines stdout25).filter isBadFile))
        "...and 5 more" = false ∧
    ((rustLines stdout25).filter isBadFile).length = 25 ∧
    strContains (commitedMessage ((rustLines stdout25).filter isBadFile))
        "\n..and 5 more" = true :=
  ⟨rfl, rfl, rfl⟩

/-- C5 (amended): a tracked file is bad exactly when it ends in one of the
twelve extensions; the three-file example fails listing exactly `build/out.o`;
the 25-matching-file example fails with a message listing the first 20 bad
files followed by a newline and the `..and 5 more` suffix (two dots); and the
check succeeds exactly when no output line is bad. -/
theorem commited_files_spec (ctx : Context) (problems : Diags) (out line : String) :
    (isBadFile line = true ↔
      (strEndsWith line ".exe" = true ∨ strEndsWith line ".dll" = true ∨
       strEndsWith line ".pdb" = true ∨ strEndsWith line ".lib" = true ∨
       strEndsWith line ".obj" = true ∨ strEndsWith line ".so" = true ∨
       strEndsWith line ".dylib" = true ∨ strEndsWith line ".a" = true ∨
       strEndsWith line ".o" = true ∨ strEndsWith line ".rlib" = true ∨
       strEndsWith line ".rmeta" = true ∨ strEndsWith line ".d" = true)) ∧
    ((check_commited_files (envWithLs out) ctx problems).2 = .ok ↔
      ∀ l ∈ rustLines out, isBadFile l = false) ∧
    check_commited_files (envWithLs "src/main.rs\nbuild/out.o\na.txt\n") ctx problems =
      (problems.add "build files were found in the repo. bad files: build/out.o"
        (some ctx.repo_path)
        (some "remove target directories and all build artifacts"), .err) ∧
    check_commited_files (envWithLs stdout25) ctx problems =
      (problems.add ("build files were found in the repo. bad files: "
          ++ joinWith "\n" (files25.take 20) ++ "\n..and 5 more")
        (some ctx.repo_path)
        (some "remove target directories and all build artifacts"), .err) := by
  refine ⟨by simp [isBadFile, EXTENSIONS], ?_, by rfl, by rfl⟩
  unfold check_commited_files envWithLs command_check_return
  dsimp only
  split
  case h_1 problems1 heq => simp at heq
  case h_2 problems1 heq =>
    split
    case isTrue h =>
      simp only [List.isEmpty_iff, List.filter_eq_nil_iff] at h
      simp only [true_iff]
      intro l hl
      simpa using h l hl
    case isFalse h =>
      simp only [List.isEmpty_iff] at h
      constructor
      · exact fun hcontra => absurd hcontra (by simp)
      · intro hall
        exact absurd (List.filter_eq_nil_iff.mpr fun a ha => by simpa using hall a ha) h

/-- C6: the gitignore check succeeds exactly when the file is present,
readable, and some line of its content contains `target`; a missing file and
a target-less file fail with a diagnostic carrying the ignore-file path and
the help link, while an unreadable file fails with the path and no help. -/
theorem gitignore_spec (env : Env) (ctx : Context) (problems : Diags) :
    ((check_gitignore env ctx problems).2 = .ok ↔
      ∃ text, env.gitignore = .content text ∧
        ∃ l ∈ rustLines text, strContains l "target" = true) ∧
    (env.gitignore = .missing →
      check_gitignore env ctx problems =
        (problems.add ".gitignore doesn't exist"
          (some (pathJoin ctx.repo_path ".gitignore")) (some gitignoreHelp), .err)) ∧
    (env.gitignore = .unreadable →
      check_gitignore env ctx problems =
        (problems.add "can't read file"
          (some (pathJoin ctx.repo_path ".gitignore")) none, .err)) ∧
    (∀ text, env.gitignore = .content text →
      (¬ ∃ l ∈ rustLines text, strContains l "target" = true) →
      check_gitignore env ctx problems =
        (problems.add "target folder doesn't exist in .gitignore"
          (some (pathJoin ctx.repo_path ".gitignore")) (some gitignoreHelp), .err)) := by
  obtain ⟨g, gls, lf, cb, cc, ct, cf⟩ := env
  cases g with
  | missing =>
    exact ⟨by simp [check_gitignore], fun _ => rfl, by simp, by simp⟩
  | unreadable =>
    exact ⟨by simp [check_gitignore], by simp, fun _ => rfl, by simp⟩
  | content t =>
    by_cases hb : ((rustLines t).any fun x => strContains x "target") = true
    · refine ⟨?_, by simp, by simp, ?_⟩
      · simp only [check_gitignore, hb, Bool.not_true, Bool.false_eq_true, if_false]
        simp only [List.any_eq_true] at hb
        simpa using hb
      · intro text heq hne
        injection heq with heq
        subst heq
        simp only [List.any_eq_true] at hb
        exact absurd (by simpa using hb) hne
    · refine ⟨?_, by simp, by simp, ?_⟩
      · simp only [Bool.not_eq_true] at hb
        simp only [check_gitignore, hb, Bool.not_false, if_true]
        constructor
        · exact fun hcontra => absurd hcontra (by simp)
        · rintro ⟨text, heq, hl⟩
          injection heq with heq
          subst heq
          have hany : ((rustLines t).any fun x => strContains x "target") = true :=
            List.any_eq_true.mpr (by simpa using hl)
          rw [hb] at hany
          exact Bool.noConfusion hany
      · intro text heq hne
        injection heq with heq
        subst heq
        simp only [Bool.not_eq_true] at hb
        simp [check_gitignore, hb]

/-- C6 witness: the three failure modes at concrete inputs, and success on a
content with a `target` line. -/
theorem gitignore_spec_witness :
    (check_gitignore
      { gitignore := .missing, gitLsFiles := Except.error "",
        labFolderExists := false, cargoBuild := Except.error "",
        cargoClippy := Except.error "", cargoTest := Except.error "",
        cargoFmt := Except.error "" }
      { repo_path := "repo", lab_path := "repo/lab01", verbose := false }
      { problems := [] } =
      (Diags.add { problems := [] } ".gitignore doesn't exist"
        (some (pathJoin "repo" ".gitignore")) (some gitignoreHelp), .err)) ∧
    (check_gitignore
      { gitignore := .unreadable, gitLsFiles := Except.error "",
        labFolderExists := false, cargoBuild := Except.error "",
        cargoClippy := Except.error "", cargoTest := Except.error "",
        cargoFmt := Except.error "" }
      { repo_path := "repo", lab_path := "repo/lab01", verbose := false }
      { problems := [] } =
      (Diags.add { problems := [] } "can't read file"
        (some (pathJoin "repo" ".gitignore")) none, .err)) ∧
    (check_gitignore
      { gitignore := .content "nothing here\n", gitLsFiles := Except.error "",
        labFolderExists := false, cargoBuild := Except.error "",
        cargoClippy := Except.error "", cargoTest := Except.error "",
        cargoFmt := Except.error "" }
      { repo_path := "repo", lab_path := "repo/lab01", verbose := false }
      { problems := [] } =
      (Diags.add { problems := [] } "target folder doesn't exist in .gitignore"
        (some (pathJoin "repo" ".gitignore")) (some gitignoreHelp), .err)) ∧
    (check_gitignore
      { gitignore := .content "/target\n", gitLsFiles := Except.error "",
        labFolderExists := false, cargoBuild := Except.error "",
        cargoClippy := Except.error "", cargoTest := Except.error "",
        cargoFmt := Except.error "" }
      { repo_path := "repo", lab_path := "repo/lab01", verbose := false }
      { problems := [] }).2 = .ok :=
  ⟨(gitignore_spec _ _ _).2.1 rfl,
   (gitignore_spec _ _ _).2.2.1 rfl,
   (gitignore_spec _ _ _).2.2.2 "nothing here\n" rfl (by decide),
   (gitignore_spec _ _ _).1.mpr ⟨"/target\n", rfl, by decide⟩⟩

/-- C7: rendering an empty collector prints the single success line; a
non-empty collector prints the header line followed, per problem in insertion
order, by the error line, then a path line exactly when a path is present,
then a help line exactly when help is present. -/
theorem render_spec (d : Diags) (p : Diag) :
    (d.problems = [] → d.print = ["no problems found"]) ∧
    (d.problems ≠ [] →
      d.print = "some problems were found:" ::
        (d.problems.map Diag.printLines).flatten) ∧
    Diag.printLines p =
      ["error: " ++ p.text]
        ++ (if h : p.path.isSome then ["path: " ++ p.path.get h] else [])
        ++ (if h : p.help.isSome then ["help: " ++ p.help.get h] else []) := by
  refine ⟨fun h => by simp [Diags.print, h], fun h => ?_, ?_⟩
  · rw [Diags.print, if_neg (by simpa [List.isEmpty_iff] using h)]
  · obtain ⟨t, path, help⟩ := p
    cases path <;> cases help <;> rfl

/-- C7 witness: the empty collector and a two-problem collector, one problem
with path and help, one with neither. -/
theorem render_spec_witness :
    Diags.print { problems := [] } = ["no problems found"] ∧
    Diags.print { problems :=
        [{ text := "a", path := some "p", help := some "h" },
         { text := "b", path := none, help := none }] } =
      "some problems were found:" ::
        (List.map Diag.printLines
          [{ text := "a", path := some "p", help := some "h" },
           { text := "b", path := none, help := none }]).flatten :=
  ⟨(render_spec { problems := [] } { text := "", path := none, help := none }).1 rfl,
   (render_spec { problems :=
      [{ text := "a", path := some "p", help := some "h" },
       { text := "b", path := none, help := none }] }
      { text := "", path := none, help := none }).2.1 (by decide)⟩

/-- C8 counterexample: the `git ls-files` invocation by the committed-files
check is an external tool invocation by a check whose process completed with
captured output, under a context whose verbose flag is set, yet its event
trace is just the exit-status evaluation and in particular contains no echo
of the captured stdout and stderr — the source captures the output with
`.output()` and never prints it. -/
theorem verbose_echo_cex :
    check_commited_files_events
      { gitignore := .missing,
        gitLsFiles := Except.ok
          { stdout := "tracked.txt\n", stderr := "warning", code := 0 },
        labFolderExists := false, cargoBuild := Except.error "",
        cargoClippy := Except.error "", cargoTest := Except.error "",
        cargoFmt := Except.error "" }
      { repo_path := "repo", lab_path := "repo/lab01", verbose := true } =
      [Event.evalStatus 0] ∧
    Event.echo "tracked.txt\n" "warning" ∉
      check_commited_files_events
        { gitignore := .missing,
          gitLsFiles := Except.ok
            { stdout := "tracked.txt\n", stderr := "warning", code := 0 },
          labFolderExists := false, cargoBuild := Except.error "",
          cargoClippy := Except.error "", cargoTest := Except.error "",
          cargoFmt := Except.error "" }
        { repo_path := "repo", lab_path := "repo/lab01", verbose := true } :=
  ⟨rfl, by decide⟩

/-- C8 (amended): for the cargo invocations, when the verbose flag is set and
the spawn completed, `run_cargo` emits the echo of the captured stdout and
stderr strictly before the exit-status evaluation event, whatever the exit
code, and when verbose is unset no echo event occurs on any path; the
`git ls-files` invocation by the committed-files check never emits an echo
event, whatever the context and environment. -/
theorem verbose_echo_spec (ctx : Context) (spawn : Except String SpawnOutput)
    (args : List String) (text : String) (problems : Diags) :
    (∀ output, spawn = .ok output → ctx.verbose = true →
      (run_cargo ctx spawn args text problems).2 =
        [.printCmd ("running command: cargo " ++ joinWith " " args),
         .echo output.stdout output.stderr,
         .evalStatus output.code]) ∧
    (ctx.verbose = false →
      ∀ o e, Event.echo o e ∉ (run_cargo ctx spawn args text problems).2) ∧
    (∀ env2 ctx2 o e, Event.echo o e ∉ check_commited_files_events env2 ctx2) := by
  refine ⟨?_, ?_, ?_⟩
  · rintro output rfl hv
    simp [run_cargo, hv]
  · intro hv o e
    cases spawn with
    | error msg => simp [run_cargo]
    | ok output => simp [run_cargo, hv]
  · intro env2 ctx2 o e
    cases h : env2.gitLsFiles <;> simp [check_commited_files_events, h]

/-- C8 witness: a completed cargo spawn echoed under verbose, and no echo
without verbose. -/
theorem verbose_echo_spec_witness :
    (run_cargo { repo_path := "repo", lab_path := "repo/lab01", verbose := true }
      (.ok { stdout := "out", stderr := "oops", code := 1 }) ["build"] "t"
      { problems := [] }).2 =
      [.printCmd ("running command: cargo " ++ joinWith " " ["build"]),
       .echo "out" "oops", .evalStatus 1] ∧
    Event.echo "x" "y" ∉
      (run_cargo { repo_path := "repo", lab_path := "repo/lab01", verbose := false }
        (.ok { stdout := "x", stderr := "y", code := 0 }) ["build"] "t"
        { problems := [] }).2 :=
  ⟨(verbose_echo_spec _ _ _ _ _).1 { stdout := "out", stderr := "oops", code := 1 }
      rfl rfl,
   (verbose_echo_spec _ _ _ _ _).2.1 rfl "x" "y"⟩

/-- C10: for the cargo-based checks, a spawn failure records a diagnostic
carrying the lab subfolder path, while a completed run with a non-zero exit
status records one carrying the repository root path; the four cargo checks
are the corresponding `run_cargo` instances. -/
theorem cargo_failure_paths (ctx : Context) (args : List String)
    (text : String) (problems : Diags) (env : Env) :
    (∀ e, (run_cargo ctx (.error e) args text problems).1 =
      (problems.add (text ++ "; because: cargo failed with `" ++ e ++ "`")
        (some ctx.lab_path) none, .err)) ∧
    (∀ output : SpawnOutput, output.code ≠ 0 →
      (run_cargo ctx (.ok output) args text problems).1 =
        (problems.add
          (text ++ "; command `" ++ "cargo" ++ "` failed: " ++ statusDisplay output.code)
          (some ctx.repo_path) none, .err)) ∧
    check_compiler_warnings env ctx problems =
      (run_cargo ctx env.cargoBuild ["build", "--all", "-q"]
        "code has compiler warnings" problems).1 ∧
    check_clippy env ctx problems =
      (run_cargo ctx env.cargoClippy ["clippy", "--all", "-q"]
        "code has clippy warnings" problems).1 ∧
    check_tests env ctx problems =
      (run_cargo ctx env.cargoTest ["test", "--all", "-q"]
        "code has failed tests" problems).1 ∧
    check_fmt env ctx problems =
      (run_cargo ctx env.cargoFmt ["fmt", "--all", "--check", "-q"]
        "code is not formatted" problems).1 := by
  refine ⟨fun e => rfl, fun output hc => ?_, rfl, rfl, rfl, rfl⟩
  simp [run_cargo, command_check_return, hc]

/-- C10 witness: the two failure modes at concrete inputs carry the lab path
and the repository path respectively. -/
theorem cargo_failure_paths_witness :
    (run_cargo { repo_path := "repo", lab_path := "repo/lab01", verbose := false }
      (.error "no such file") ["build"] "t" { problems := [] }).1 =
      (Diags.add { problems := [] } ("t" ++ "; because: cargo failed with `" ++ "no such file" ++ "`")
        (some "repo/lab01") none, .err) ∧
    (run_cargo { repo_path := "repo", lab_path := "repo/lab01", verbose := false }
      (.ok { stdout := "", stderr := "", code := 101 }) ["build"] "t"
      { problems := [] }).1 =
      (Diags.add { problems := [] }
        ("t" ++ "; command `" ++ "cargo" ++ "` failed: " ++ statusDisplay 101)
        (some "repo") none, .err) :=
  ⟨(cargo_failure_paths _ ["build"] "t" { problems := [] }
      { gitignore := .missing, gitLsFiles := Except.error "",
        labFolderExists := false, cargoBuild := Except.error "",
        cargoClippy := Except.error "", cargoTest := Except.error "",
        cargoFmt := Except.error "" }).1 "no such file",
   (cargo_failure_paths _ ["build"] "t" { problems := [] }
      { gitignore := .missing, gitLsFiles := Except.error "",
        labFolderExists := false, cargoBuild := Except.error "",
        cargoClippy := Except.error "", cargoTest := Except.error "",
        cargoFmt := Except.error "" }).2.1
      { stdout := "", stderr := "", code := 101 } (by decide)⟩

/-- A check succeeds without touching the collector when its observation is
good: gitignore with a target line. -/
theorem check_gitignore_ok (env : Env) (ctx : Context) (problems : Diags)
    (t : String) (hg : env.gitignore = .content t)
    (ht : ((rustLines t).any fun x => strContains x "target") = true) :
    check_gitignore env ctx problems = (problems, .ok) := by
  simp [check_gitignore, hg, ht]

theorem check_commited_files_ok (env : Env) (ctx : Context) (problems : Diags)
    (out : SpawnOutput) (hg : env.gitLsFiles = .ok out) (hc : out.code = 0)
    (hb : (rustLines out.stdout).filter isBadFile = []) :
    check_commited_files env ctx problems = (problems, .ok) := by
  simp [check_commited_files, hg, command_check_return, hc, hb]

theorem check_lab_folder_ok (env : Env) (ctx : Context) (problems : Diags)
    (hl : env.labFolderExists = true) :
    check_lab_folder env ctx problems = (problems, .ok) := by
  simp [check_lab_folder, hl]

theorem run_cargo_based_ok (ctx : Context) (out : SpawnOutput)
    (args : List String) (text : String) (problems : Diags) (hc : out.code = 0) :
    (run_cargo ctx (.ok out) args text problems).1 = (problems, .ok) := by
  simp [run_cargo, command_check_return, hc]

/-- Whether an observed environment is defect-free: a readable gitignore with
a target line, a clean tracked-file listing, a present lab folder, and all
four cargo commands completing with exit code 0. -/
def Env.defectFree (env : Env) : Bool :=
  (match env.gitignore with
   | .content t => (rustLines t).any fun x => strContains x "target"
   | _ => false)
  && (match env.gitLsFiles with
      | .ok out => out.code == 0 && ((rustLines out.stdout).filter isBadFile).isEmpty
      | .error _ => false)
  && env.labFolderExists
  && (match env.cargoBuild with | .ok out => out.code == 0 | .error _ => false)
  && (match env.cargoClippy with | .ok out => out.code == 0 | .error _ => false)
  && (match env.cargoTest with | .ok out => out.code == 0 | .error _ => false)
  && (match env.cargoFmt with | .ok out => out.code == 0 | .error _ => false)

/-- C9: the pipeline is a pure function of the repository path, lab
identifier, verbose flag, and observed environment, so two runs with equal
inputs produce identical diagnostic collections and results; and on a
whitelisted lab with a defect-free environment both runs yield the empty
collection and success. -/
theorem pipeline_deterministic (repo lab : String) (verbose : Bool)
    (env1 env2 : Env) (h : env1 = env2) :
    main_impl repo lab verbose env1 { problems := [] } =
      main_impl repo lab verbose env2 { problems := [] } ∧
    (lab ∈ NAMES → env1.defectFree = true →
      main_impl repo lab verbose env1 { problems := [] } =
        ({ problems := [] }, .ok) ∧
      main_impl repo lab verbose env2 { problems := [] } =
        ({ problems := [] }, .ok)) := by
  subst h
  refine ⟨rfl, fun hmem hdf => ?_⟩
  simp only [Env.defectFree, Bool.and_eq_true] at hdf
  obtain ⟨⟨⟨⟨⟨⟨h1, h2⟩, h3⟩, h4⟩, h5⟩, h6⟩, h7⟩ := hdf
  suffices hs : main_impl repo lab verbose env1 { problems := [] } =
      ({ problems := [] }, .ok) from ⟨hs, hs⟩
  obtain ⟨t, hg, ht⟩ : ∃ t, env1.gitignore = .content t ∧
      ((rustLines t).any fun x => strContains x "target") = true := by
    cases hg : env1.gitignore <;> rw [hg] at h1 <;>
      first
        | exact Bool.noConfusion h1
        | exact ⟨_, rfl, h1⟩
  obtain ⟨outg, hgls, hgc, hgb⟩ : ∃ out, env1.gitLsFiles = .ok out ∧
      out.code = 0 ∧ (rustLines out.stdout).filter isBadFile = [] := by
    cases hls : env1.gitLsFiles <;> rw [hls] at h2
    · exact Bool.noConfusion h2
    · rw [Bool.and_eq_true] at h2
      exact ⟨_, rfl, by simpa using h2.1, by simpa [List.isEmpty_iff] using h2.2⟩
  obtain ⟨outb, hcb, hcbc⟩ : ∃ out, env1.cargoBuild = .ok out ∧ out.code = 0 := by
    cases hx : env1.cargoBuild <;> rw [hx] at h4
    · exact Bool.noConfusion h4
    · exact ⟨_, rfl, by simpa using h4⟩
  obtain ⟨outc, hcc, hccc⟩ : ∃ out, env1.cargoClippy = .ok out ∧ out.code = 0 := by
    cases hx : env1.cargoClippy <;> rw [hx] at h5
    · exact Bool.noConfusion h5
    · exact ⟨_, rfl, by simpa using h5⟩
  obtain ⟨outt, hct, hctc⟩ : ∃ out, env1.cargoTest = .ok out ∧ out.code = 0 := by
    cases hx : env1.cargoTest <;> rw [hx] at h6
    · exact Bool.noConfusion h6
    · exact ⟨_, rfl, by simpa using h6⟩
  obtain ⟨outf, hcf, hcfc⟩ : ∃ out, env1.cargoFmt = .ok out ∧ out.code = 0 := by
    cases hx : env1.cargoFmt <;> rw [hx] at h7
    · exact Bool.noConfusion h7
    · exact ⟨_, rfl, by simpa using h7⟩
  have e1 : ∀ ctx p, check_gitignore env1 ctx p = (p, .ok) :=
    fun ctx p => check_gitignore_ok env1 ctx p t hg ht
  have e2 : ∀ ctx p, check_commited_files env1 ctx p = (p, .ok) :=
    fun ctx p => check_commited_files_ok env1 ctx p outg hgls hgc hgb
  have e3 : ∀ ctx p, check_lab_folder env1 ctx p = (p, .ok) :=
    fun ctx p => check_lab_folder_ok env1 ctx p h3
  have e4 : ∀ ctx p, check_compiler_warnings env1 ctx p = (p, .ok) := by
    intro ctx p
    unfold check_compiler_warnings
    rw [hcb]
    exact run_cargo_based_ok ctx outb _ _ p hcbc
  have e5 : ∀ ctx p, check_clippy env1 ctx p = (p, .ok) := by
    intro ctx p
    unfold check_clippy
    rw [hcc]
    exact run_cargo_based_ok ctx outc _ _ p hccc
  have e6 : ∀ ctx p, check_tests env1 ctx p = (p, .ok) := by
    intro ctx p
    unfold check_tests
    rw [hct]
    exact run_cargo_based_ok ctx outt _ _ p hctc
  have e7 : ∀ ctx p, check_fmt env1 ctx p = (p, .ok) := by
    intro ctx p
    unfold check_fmt
    rw [hcf]
    exact run_cargo_based_ok ctx outf _ _ p hcfc
  simp [main_impl, validate_lab_name, hmem, CHECKS, checksLoop,
    e1, e2, e3, e4, e5, e6, e7, CheckResult.and]

/-- A concrete defect-free environment. -/
def envGood : Env :=
  { gitignore := .content "/target\n",
    gitLsFiles := Except.ok
      { stdout := "src/main.rs\nCargo.toml\n", stderr := "", code := 0 },
    labFolderExists := true,
    cargoBuild := Except.ok { stdout := "", stderr := "", code := 0 },
    cargoClippy := Except.ok { stdout := "", stderr := "", code := 0 },
    cargoTest := Except.ok { stdout := "", stderr := "", code := 0 },
    cargoFmt := Except.ok { stdout := "", stderr := "", code := 0 } }

/-- C9 witness: two runs on the same concrete defect-free environment are
identical and both empty and successful. -/
theorem pipeline_deterministic_witness :
    main_impl "repo" "lab01" false envGood { problems := [] } =
      main_impl "repo" "lab01" false envGood { problems := [] } ∧
    main_impl "repo" "lab01" false envGood { problems := [] } =
      ({ problems := [] }, .ok) :=
  ⟨(pipeline_deterministic "repo" "lab01" false envGood envGood rfl).1,
   ((pipeline_deterministic "repo" "lab01" false envGood envGood rfl).2
      (by decide) (by decide)).1⟩

end CourseHelper
